import Mathlib

/-!
Shallow embedding of the tool/resource dispatch layer of the unleash-mcp
server: the logger (src/src/context.ts), ensureProjectId and handleToolError
(src/src/context.ts), the progress notification emitter
(src/src/utils/streaming.ts), the get_flag_state tool
(src/src/tools/getFlagState.ts), and the resource handlers registered in
src/src/index.ts.  JavaScript truthiness on optional strings is modelled by
jsTruthy; thrown exceptions are modelled with Except; side effects (logger
calls, notification sends, remote fetches) are modelled as event traces
returned alongside the result.
-/

namespace UnleashMcp

/-- JavaScript truthiness of a possibly-undefined string: undefined and the
empty string are falsy, every other string is truthy. -/
def jsTruthy : Option String → Bool
  | none => false
  | some s => !(s == "")

/-- The string value of a possibly-undefined string, defaulting to empty. -/
def optionStringValue : Option String → String
  | none => ""
  | some s => s

/-! ## Logger (src/src/context.ts, createLogger) -/

/-- The level names in ascending order, as in createLogger. -/
def levels : List String := ["debug", "info", "warn", "error"]

/-- JavaScript Array.prototype.indexOf: index of the first occurrence, or -1. -/
def jsIndexOfFrom : List String → String → Int → Int
  | [], _, _ => -1
  | y :: ys, x, i => if y == x then i else jsIndexOfFrom ys x (i + 1)

/-- JavaScript indexOf starting at position 0. -/
def jsIndexOf (xs : List String) (x : String) : Int := jsIndexOfFrom xs x 0

/-- shouldLog from createLogger: a line at the given level is written when its
index is at least the index of the configured level. -/
def shouldLog (logLevel level : String) : Bool :=
  jsIndexOf levels level ≥ jsIndexOf levels logLevel

/-- Number of lines a single logger call writes: each of the four logger
methods calls writeLog exactly once when shouldLog holds, otherwise nothing. -/
def loggerLinesWritten (logLevel level : String) : Nat :=
  if shouldLog logLevel level then 1 else 0

/-- The destinations a writeLog line can go to. -/
inductive LogSink
  | file
  | stderr
  | stdout
deriving DecidableEq, Repr

/-- Sink selection of writeLog in createLogger: when APP_LOG_FILE is truthy the
line is appended to that file, falling back to stderr when the append throws;
otherwise the line goes to stderr via console.error.  The append failure is
modelled by the boolean appendFileFails. -/
def writeLogSink (appLogFile : Option String) (appendFileFails : Bool) : LogSink :=
  if jsTruthy appLogFile then
    if appendFileFails then LogSink.stderr else LogSink.file
  else LogSink.stderr

/-! ## ensureProjectId (src/src/context.ts) -/

/-- The message of the error thrown by ensureProjectId when neither a provided
nor a default project id is available. -/
def ensureProjectIdMessage : String :=
  "Project ID is required. Either provide it as a parameter or set UNLEASH_DEFAULT_PROJECT in your .env file."

/-- ensureProjectId from src/src/context.ts: return the provided project id
when truthy, else the default when truthy, else throw. -/
def ensureProjectId (providedProjectId defaultProjectId : Option String) :
    Except String String :=
  if jsTruthy providedProjectId then Except.ok (optionStringValue providedProjectId)
  else if jsTruthy defaultProjectId then Except.ok (optionStringValue defaultProjectId)
  else Except.error ensureProjectIdMessage

/-! ## Progress notification emitter (src/src/utils/streaming.ts) -/

/-- A progress token is an opaque string or number (string | number in the
source). -/
inductive ProgressToken
  | str (s : String)
  | num (n : Int)
deriving DecidableEq, Repr

/-- A call made to server.notification: either a progress notification with
the token and the numeric pair, or the follow-up message notification. -/
inductive NotificationEvent
  | progress (token : ProgressToken) (progress total : Nat)
  | message (data : Option String)
deriving DecidableEq, Repr

/-- Fault injection for the notification channel: whether each of the two
server.notification sends inside the try block throws. -/
structure NotifyEnv where
  progressSendFails : Bool
  messageSendFails : Bool
deriving DecidableEq, Repr

/-- The try block of the inner emitter: send the progress notification, then
the message notification.  Each send is recorded as a call even when it
throws; a throw aborts the rest of the block. -/
def notifyProgressTryBody (env : NotifyEnv) (tok : ProgressToken)
    (progress total : Nat) (message : Option String) :
    Except Unit Unit × List NotificationEvent :=
  let firstCall := [NotificationEvent.progress tok progress total]
  if env.progressSendFails then (Except.error (), firstCall)
  else
    let bothCalls := firstCall ++ [NotificationEvent.message message]
    if env.messageSendFails then (Except.error (), bothCalls)
    else (Except.ok (), bothCalls)

/-- notifyProgress from src/src/utils/streaming.ts.  The source is curried: it
takes the server handle (modelled here by the fault-injection environment of
its notification channel) and returns the four-argument async emitter.  The
emitter returns immediately when the token is undefined; otherwise it runs the
try body and the catch clause silently discards any notification error. -/
def notifyProgress (env : NotifyEnv) :
    Option ProgressToken → Nat → Nat → Option String →
    Except Unit Unit × List NotificationEvent
  | none, _, _, _ => (Except.ok (), [])
  | some tok, progress, total, message =>
    match notifyProgressTryBody env tok progress total message with
    | (Except.ok _, calls) => (Except.ok (), calls)
    | (Except.error _, calls) => (Except.ok (), calls)

/-! ## Error taxonomy and handleToolError -/

/-- The thrown-error causes distinguished by the system: a schema violation
from zod parsing, a missing-configuration error such as the one thrown by
ensureProjectId, a remote call failure carrying an HTTP status, and any other
cause. -/
inductive JsError
  | zod (message : String)
  | config (message : String)
  | http (status : Nat) (message : String)
  | other (message : String)
deriving DecidableEq, Repr

/-- The error kinds of the normalized taxonomy. -/
inductive ErrorCode
  | InvalidInput
  | MissingConfiguration
  | RemoteError
  | NotFoundTool
  | Unknown
deriving DecidableEq, Repr

/-- A normalized error: enumerated kind, message, optional hint. -/
structure NormalizedError where
  code : ErrorCode
  message : String
  hint : Option String
deriving DecidableEq, Repr

/-- Modelled from the spec: src/utils/errors.ts (normalizeError) is not among
the sources.  Per section 4.5, a schema violation maps to InvalidInput with no
hint, missing required context maps to MissingConfiguration with a hint naming
the config knob, a remote call failure maps to RemoteError with a
connectivity/credential hint for auth-class statuses, and any unrecognized
cause maps to Unknown with the stringified cause and no hint. -/
def normalizeError : JsError → NormalizedError
  | JsError.zod m => { code := ErrorCode.InvalidInput, message := m, hint := none }
  | JsError.config m =>
    { code := ErrorCode.MissingConfiguration, message := m,
      hint := some "Set the named configuration value in your environment." }
  | JsError.http status m =>
    { code := ErrorCode.RemoteError, message := m,
      hint := if status == 401 || status == 403 then
          some "Check connectivity and the UNLEASH_PAT credential." else none }
  | JsError.other m => { code := ErrorCode.Unknown, message := m, hint := none }

/-- A call to one of the logger methods: its level name and message. -/
structure LogCall where
  level : String
  message : String
deriving DecidableEq, Repr

/-- Number of error-level logger calls in a trace. -/
def errorLogCount (logs : List LogCall) : Nat :=
  (logs.filter (fun l => l.level == "error")).length

/-- The hint suffix appended to the text content by handleToolError. -/
def hintSuffix : Option String → String
  | some h => "\n\nHint: " ++ h
  | none => ""

/-- One content block of a tool result: a text block, or an embedded resource
with uri, MIME type and text. -/
inductive ContentBlock
  | text (text : String)
  | resource (uri mimeType text : String)
deriving DecidableEq, Repr

/-- The structuredContent of a get_flag_state result: the success record
(modelled by its identifying fields) or the failure record carrying the
normalized error. -/
inductive StructuredContent
  | success (projectId featureName : String) (environmentFilter : Option String)
  | failure (error : NormalizedError)
deriving DecidableEq, Repr

/-- The result of a tool call as returned over the protocol. -/
structure CallToolResult where
  isError : Bool
  content : List ContentBlock
  structuredContent : StructuredContent
deriving DecidableEq, Repr

/-- handleToolError from src/src/context.ts: normalize the error, log exactly
one error line naming the tool, and return the structured failure result with
isError set and the normalized error in structuredContent. -/
def handleToolError (toolName : String) (error : JsError) :
    CallToolResult × List LogCall :=
  let normalized := normalizeError error
  ({ isError := true,
     content := [ContentBlock.text
       ("Error: " ++ normalized.message ++ hintSuffix normalized.hint)],
     structuredContent := StructuredContent.failure normalized },
   [{ level := "error", message := "Error in " ++ toolName ++ ":" }])

/-! ## The get_flag_state tool (src/src/tools/getFlagState.ts) -/

/-- One environment entry of a feature as returned by the Admin API.  The
strategies array is modelled by the list of the disabled bits of its entries,
which is all summarizeEnvironment reads of it; the variants array by its
length. -/
structure FeatureEnvironment where
  name : String
  environment : Option String
  enabled : Bool
  strategiesDisabled : List Bool
  variantsCount : Nat
deriving DecidableEq, Repr

/-- Feature details as returned by the Admin API (the fields getFlagState
reads; the type field is named ftype because type is a keyword here). -/
structure FeatureDetails where
  name : String
  ftype : Option String
  enabled : Bool
  archived : Bool
  impressionData : Bool
  project : Option String
  environments : Option (List FeatureEnvironment)
deriving DecidableEq, Repr

/-- The parsed input of get_flag_state after zod validation. -/
structure GetFlagStateInput where
  projectId : Option String
  featureName : String
  environment : Option String
deriving DecidableEq, Repr

/-- summarizeEnvironment from src/src/tools/getFlagState.ts. -/
def summarizeEnvironment (env : FeatureEnvironment) : String :=
  let status := if env.enabled then "enabled" else "disabled"
  let strategyCount := env.strategiesDisabled.length
  let enabledStrategies := (env.strategiesDisabled.filter (fun d => !d)).length
  let variants := env.variantsCount
  (match env.environment with
   | some e => e
   | none => env.name) ++ ": " ++ status ++ " (" ++ toString enabledStrategies ++
    "/" ++ toString strategyCount ++ " active strategies" ++
    (if variants != 0 then ", " ++ toString variants ++ " variants" else "") ++ ")"

/-- The environment a get_flag_state invocation runs in: the outcome of the
zod parse of the raw arguments, the configured default project and base URL,
the outcome of the remote getFeature call, and the fault injection for the
notification channel of the server handle. -/
structure GetFlagStateEnv where
  parseResult : Except JsError GetFlagStateInput
  defaultProject : Option String
  baseUrl : String
  fetchResult : Except JsError FeatureDetails
  notifyEnv : NotifyEnv
deriving Repr

/-- The case-insensitive environment filter applied by getFlagState when an
environment filter is supplied. -/
def filterEnvironments (flt : String) (envs : List FeatureEnvironment) :
    List FeatureEnvironment :=
  envs.filter (fun en =>
    (match en.environment with
     | some x => x.toLower == flt.toLower
     | none => false) || en.name.toLower == flt.toLower)

/-- The try block of getFlagState: parse the arguments, resolve the project
id, call notifyProgress, fetch the feature, filter its environments, call
notifyProgress again, and build the success result and its single info log
line.  Any step may throw.  The two notifyProgress call sites pass five
arguments to the curried one-parameter function of streaming.ts: JavaScript
discards the four extra arguments and the call returns the inner emitter
without invoking it, and awaiting that function value sends nothing, so the
notification trace of each call site is empty.  URL percent-encoding and
duplicate-slash normalization of the link strings are elided as no property
here depends on them. -/
def getFlagStateTry (env : GetFlagStateEnv) (progressToken : Option ProgressToken) :
    Except JsError CallToolResult × List LogCall × List NotificationEvent :=
  match env.parseResult with
  | Except.error e => (Except.error e, [], [])
  | Except.ok input =>
    match ensureProjectId input.projectId env.defaultProject with
    | Except.error msg => (Except.error (JsError.config msg), [], [])
    | Except.ok projectId =>
      let notifsStart : List NotificationEvent := []
      match env.fetchResult with
      | Except.error e => (Except.error e, [], notifsStart)
      | Except.ok feature =>
        let environmentsAll := match feature.environments with
          | some es => es
          | none => []
        let environments := match input.environment with
          | some flt => filterEnvironments flt environmentsAll
          | none => environmentsAll
        let notifsDone := notifsStart ++ []
        let uiUrl := env.baseUrl ++ "/projects/" ++ projectId ++ "/features/" ++
          input.featureName
        let resourceUri := "unleash://projects/" ++ projectId ++ "/features/" ++
          input.featureName
        let apiUrl := env.baseUrl ++ "/api/admin/projects/" ++ projectId ++
          "/features/" ++ input.featureName
        let environmentSummaries :=
          if environments.length > 0 then
            String.intercalate "\n"
              (environments.map (fun e2 => "- " ++ summarizeEnvironment e2))
          else "- No environments matched the provided filters."
        let summaryText := String.intercalate "\n"
          ["Feature " ++ feature.name,
           "Enabled: " ++ (if feature.enabled then "yes" else "no"),
           "Project: " ++ (match feature.project with
             | some p => p
             | none => projectId),
           "Environments:\n" ++ environmentSummaries,
           "View feature: " ++ uiUrl,
           "Admin API: " ++ apiUrl]
        let infoLog : LogCall :=
          { level := "info",
            message := "Retrieved feature state for " ++ input.featureName }
        (Except.ok
          { isError := false,
            content := [ContentBlock.text summaryText,
              ContentBlock.resource resourceUri "application/json"
                ("Feature flag: " ++ input.featureName)],
            structuredContent :=
              StructuredContent.success projectId feature.name input.environment },
         [infoLog], notifsDone)

/-- getFlagState from src/src/tools/getFlagState.ts: run the try block; the
catch clause routes any thrown error through handleToolError, appending its
single error log line, so the dispatch boundary always yields a result. -/
def getFlagState (env : GetFlagStateEnv) (progressToken : Option ProgressToken) :
    Except JsError CallToolResult × List LogCall × List NotificationEvent :=
  match getFlagStateTry env progressToken with
  | (Except.ok r, logs, notifs) => (Except.ok r, logs, notifs)
  | (Except.error e, logs, notifs) =>
    let handled := handleToolError "get_flag_state" e
    (Except.ok handled.1, logs ++ handled.2, notifs)

/-! ## Resource option parsing and resource handlers
(src/src/index.ts, registerResources; readers and option parsers from the
absent src/src/resources/unleashResources.ts are modelled from the spec) -/

/-- Sort order of a collection resource. -/
inductive SortOrder
  | ascending
  | descending
deriving DecidableEq, Repr

/-- Parsed query options of a collection resource. -/
structure ParsedOptions where
  order : SortOrder
  offset : Int
  limit : Option Int
deriving DecidableEq, Repr

/-- The raw query parameters carried by a collection resource URI, already
split out of the query string: each is absent or an extracted value (numeric
parameters as integers). -/
structure RawQueryOptions where
  limit : Option Int
  order : Option String
  offset : Option Int
deriving DecidableEq, Repr

/-- A normalized InvalidInput error with the given message. -/
def invalidInputErr (m : String) : NormalizedError :=
  { code := ErrorCode.InvalidInput, message := m, hint := none }

/-- Modelled from the spec: the order parameter accepts asc or desc (per the
resource descriptions in src/src/index.ts), defaulting to ascending; any other
value is an InvalidInput failure. -/
def parseOrderOption : Option String → Except NormalizedError SortOrder
  | none => Except.ok SortOrder.ascending
  | some o =>
    if o == "asc" then Except.ok SortOrder.ascending
    else if o == "desc" then Except.ok SortOrder.descending
    else Except.error (invalidInputErr ("Invalid order option: " ++ o))

/-- Modelled from the spec: parseProjectsResourceOptions and
parseFeatureFlagsResourceOptions live in src/src/resources/unleashResources.ts,
which is not among the sources.  Per section 4.3 the options are limit (a
positive integer, default unbounded), order (default ascending) and offset (a
non-negative integer, default 0); out-of-range values fail with InvalidInput
rather than being clamped. -/
def parseResourceOptions (q : RawQueryOptions) : Except NormalizedError ParsedOptions :=
  match parseOrderOption q.order with
  | Except.error e => Except.error e
  | Except.ok ord =>
    match q.offset with
    | some off =>
      if off < 0 then
        Except.error (invalidInputErr "offset must be a non-negative integer")
      else
        match q.limit with
        | none => Except.ok { order := ord, offset := off, limit := none }
        | some l =>
          if l ≤ 0 then
            Except.error (invalidInputErr "limit must be a positive integer")
          else Except.ok { order := ord, offset := off, limit := some l }
    | none =>
      match q.limit with
      | none => Except.ok { order := ord, offset := 0, limit := none }
      | some l =>
        if l ≤ 0 then
          Except.error (invalidInputErr "limit must be a positive integer")
        else Except.ok { order := ord, offset := 0, limit := some l }

/-- One structured content block returned by a resource read. -/
structure ResourceContents where
  uri : String
  mimeType : String
  text : String
deriving DecidableEq, Repr

/-- A remote fetch performed by a resource reader. -/
inductive FetchEvent
  | fetchProjects
  | fetchFlags (projectId : String)
  | fetchFlag (projectId flagName : String)
deriving DecidableEq, Repr

/-- Modelled from the spec: readFeatureFlagsResource lives in the absent
src/src/resources/unleashResources.ts.  Per section 4.3 each matched reader
performs a fresh remote fetch and returns one content block tagged with a MIME
type. -/
def readFeatureFlagsResource (projectId : String) (opts : ParsedOptions) :
    ResourceContents × List FetchEvent :=
  let _ := opts
  ({ uri := "unleash://projects/" ++ projectId ++ "/features",
     mimeType := "application/json",
     text := "Feature flags of project " ++ projectId },
   [FetchEvent.fetchFlags projectId])

/-- Modelled from the spec: readFeatureFlagResource lives in the absent
src/src/resources/unleashResources.ts.  Per section 4.3 the single-item reader
performs a fresh remote fetch and returns one content block tagged with a MIME
type. -/
def readFeatureFlagResource (projectId flagName : String) :
    ResourceContents × List FetchEvent :=
  ({ uri := "unleash://projects/" ++ projectId ++ "/features/" ++ flagName,
     mimeType := "application/json",
     text := "Feature flag " ++ flagName },
   [FetchEvent.fetchFlag projectId flagName])

/-- The nested feature-flags collection handler registered in
src/src/index.ts: a falsy extracted projectId throws before the reader (and
hence before any remote fetch) runs. -/
def featureFlagsResourceHandler (projectId : Option String) (opts : ParsedOptions) :
    Except String (List ResourceContents) × List FetchEvent :=
  if !(jsTruthy projectId) then
    (Except.error "Project ID missing from feature flags URI", [])
  else
    let r := readFeatureFlagsResource (optionStringValue projectId) opts
    (Except.ok [r.1], r.2)

/-- The single feature-flag handler registered in src/src/index.ts: a falsy
extracted projectId or flagName throws before the reader (and hence before any
remote fetch) runs. -/
def featureFlagResourceHandler (projectId flagName : Option String) :
    Except String (List ResourceContents) × List FetchEvent :=
  if !(jsTruthy projectId) then
    (Except.error "Project ID missing from feature flag URI", [])
  else if !(jsTruthy flagName) then
    (Except.error "Flag name missing from feature flag URI", [])
  else
    let r := readFeatureFlagResource (optionStringValue projectId)
      (optionStringValue flagName)
    (Except.ok [r.1], r.2)

/-! ## The execution context as declared and as constructed -/

/-- Field names of the ServerContext interface declared in src/src/context.ts
(lines 11 to 21): config, unleashClient, logger, notifyProgress. -/
def serverContextFieldNames : List String :=
  ["config", "unleashClient", "logger", "notifyProgress"]

/-- Field names of the context object literal constructed once in main
(src/src/index.ts, lines 104 to 109): server, config, unleashClient, logger. -/
def mainContextFieldNames : List String :=
  ["server", "config", "unleashClient", "logger"]

/-! ## Helper lemmas -/

/-- jsTruthy of the empty string is false, as for an absent value. -/
theorem jsTruthy_some_empty : jsTruthy (some "") = false := rfl

/-- jsTruthy of none is false. -/
theorem jsTruthy_none : jsTruthy none = false := rfl

/-- With a token present, the emitter always resolves normally: the catch
clause swallows both possible notification errors. -/
theorem notifyProgress_withToken_ok (env : NotifyEnv) (tok : ProgressToken)
    (progress total : Nat) (message : Option String) :
    (notifyProgress env (some tok) progress total message).1 = Except.ok () := by
  cases h : notifyProgressTryBody env tok progress total message with
  | mk r calls => cases r <;> simp [notifyProgress, h]

/-! ## Claim theorems -/

/-- C4: every line written by the logger goes either to the configured
append-only log file or to stderr; no logger call ever writes to stdout,
including on the fallback path taken when appending to the log file fails. -/
theorem claim_C4_logger_sink (appLogFile : Option String) (appendFileFails : Bool) :
    writeLogSink appLogFile appendFileFails ≠ LogSink.stdout ∧
    (writeLogSink appLogFile appendFileFails = LogSink.file ∨
     writeLogSink appLogFile appendFileFails = LogSink.stderr) := by
  cases hj : jsTruthy appLogFile <;> cases appendFileFails <;>
    simp [writeLogSink, hj]

/-- C7: with no progress token the emitter returns immediately: no
notification call is made and no observable effect occurs, for any progress,
total and message arguments. -/
theorem claim_C7_no_token_noop (env : NotifyEnv) (progress total : Nat)
    (message : Option String) :
    notifyProgress env none progress total message = (Except.ok (), []) := rfl

/-- C6: with a token supplied, a failure sending either the progress
notification or the follow-up message notification is caught and discarded
inside the emitter: the emitter resolves normally, its returned value is the
one of the fault-free run, and the result of the triggering get_flag_state
invocation does not depend on the notification channel at all. -/
theorem claim_C6_send_failure_discarded (env : NotifyEnv) (tok : ProgressToken)
    (progress total : Nat) (message : Option String) :
    (notifyProgress env (some tok) progress total message).1 = Except.ok () ∧
    (notifyProgress env (some tok) progress total message).1 =
      (notifyProgress { progressSendFails := false, messageSendFails := false }
        (some tok) progress total message).1 ∧
    (∀ e2 : GetFlagStateEnv, ∀ t2 : Option ProgressToken,
      getFlagState { e2 with notifyEnv := env } t2 = getFlagState e2 t2) := by
  refine ⟨notifyProgress_withToken_ok env tok progress total message, ?_, ?_⟩
  · rw [notifyProgress_withToken_ok, notifyProgress_withToken_ok]
  · intro e2 t2
    cases e2
    rfl

/-- C8: for every configured threshold among the four level names and every
logger call, a call strictly below the threshold in the order
debug < info < warn < error writes nothing, and a call at or above it writes
exactly one line. -/
theorem claim_C8_level_threshold (threshold level : String)
    (ht : threshold ∈ levels) (hl : level ∈ levels) :
    (jsIndexOf levels level < jsIndexOf levels threshold →
      loggerLinesWritten threshold level = 0) ∧
    (jsIndexOf levels threshold ≤ jsIndexOf levels level →
      loggerLinesWritten threshold level = 1) := by
  simp only [levels, List.mem_cons, List.not_mem_nil, or_false] at ht hl
  rcases ht with rfl | rfl | rfl | rfl <;> rcases hl with rfl | rfl | rfl | rfl <;>
    exact ⟨by decide, by decide⟩

/-- Witness for C8 at the info threshold: a debug call writes nothing, a warn
call writes exactly one line. -/
theorem claim_C8_witness :
    loggerLinesWritten "info" "debug" = 0 ∧ loggerLinesWritten "info" "warn" = 1 :=
  ⟨(claim_C8_level_threshold "info" "debug" (by decide) (by decide)).1 (by decide),
   (claim_C8_level_threshold "info" "warn" (by decide) (by decide)).2 (by decide)⟩

/-- C10: ensureProjectId treats an empty provided project id exactly like an
absent one: the default is returned when truthy, otherwise the thrown error
names the UNLEASH_DEFAULT_PROJECT knob; a non-empty provided id always wins
over any default. -/
theorem claim_C10_ensure_project_id (defaultProject : Option String) :
    ensureProjectId (some "") defaultProject = ensureProjectId none defaultProject ∧
    (jsTruthy defaultProject = true →
      ensureProjectId (some "") defaultProject =
        Except.ok (optionStringValue defaultProject)) ∧
    (jsTruthy defaultProject = false →
      ensureProjectId (some "") defaultProject =
        Except.error ensureProjectIdMessage) ∧
    (∀ p : String, p ≠ "" → ∀ d : Option String,
      ensureProjectId (some p) d = Except.ok p) ∧
    (∃ pre post : String,
      ensureProjectIdMessage = pre ++ "UNLEASH_DEFAULT_PROJECT" ++ post) := by
  refine ⟨rfl, ?_, ?_, ?_, ?_⟩
  · intro h
    simp [ensureProjectId, jsTruthy_some_empty, h]
  · intro h
    simp [ensureProjectId, jsTruthy_some_empty, h]
  · intro p hp d
    have htr : jsTruthy (some p) = true := by simp [jsTruthy, hp]
    simp [ensureProjectId, htr, optionStringValue]
  · exact ⟨"Project ID is required. Either provide it as a parameter or set ",
      " in your .env file.", rfl⟩

/-- Witness for C10: with an empty provided id the default alpha is returned;
with no default the error message is thrown; a non-empty provided id beta wins
over the default alpha. -/
theorem claim_C10_witness :
    ensureProjectId (some "") (some "alpha") = Except.ok "alpha" ∧
    ensureProjectId (some "") none = Except.error ensureProjectIdMessage ∧
    ensureProjectId (some "beta") (some "alpha") = Except.ok "beta" :=
  ⟨(claim_C10_ensure_project_id (some "alpha")).2.1 rfl,
   (claim_C10_ensure_project_id none).2.2.1 rfl,
   (claim_C10_ensure_project_id (some "alpha")).2.2.2.1 "beta" (by decide)
     (some "alpha")⟩

/-- C5: a single-item feature-flag read with an empty or missing projectId or
flagName, and a nested feature-flags collection read with an empty or missing
projectId, fail with an error before any remote fetch is performed: the fetch
trace is empty, so an empty required placeholder is never treated as matching
all items. -/
theorem claim_C5_empty_placeholder_fails (projectId flagName : Option String)
    (opts : ParsedOptions) :
    (jsTruthy projectId = false →
      (∃ m, featureFlagsResourceHandler projectId opts = (Except.error m, [])) ∧
      (∃ m, featureFlagResourceHandler projectId flagName = (Except.error m, []))) ∧
    (jsTruthy flagName = false →
      ∃ m, featureFlagResourceHandler projectId flagName = (Except.error m, [])) := by
  constructor
  · intro hp
    exact ⟨⟨"Project ID missing from feature flags URI",
        by simp [featureFlagsResourceHandler, hp]⟩,
      ⟨"Project ID missing from feature flag URI",
        by simp [featureFlagResourceHandler, hp]⟩⟩
  · intro hf
    by_cases hp : jsTruthy projectId = true
    · exact ⟨"Flag name missing from feature flag URI",
        by simp [featureFlagResourceHandler, hp, hf]⟩
    · exact ⟨"Project ID missing from feature flag URI",
        by simp [featureFlagResourceHandler, Bool.of_not_eq_true hp]⟩

/-- Witness for C5 at empty-string placeholders: the empty string is falsy,
both collection and single-item reads fail, and no fetch event is recorded. -/
theorem claim_C5_witness :
    jsTruthy (some "") = false ∧
    (∃ m, featureFlagsResourceHandler (some "")
      { order := SortOrder.ascending, offset := 0, limit := none } =
        (Except.error m, [])) ∧
    (∃ m, featureFlagResourceHandler (some "proj") (some "") =
        (Except.error m, [])) :=
  ⟨rfl,
   ((claim_C5_empty_placeholder_fails (some "") (some "")
      { order := SortOrder.ascending, offset := 0, limit := none }).1 rfl).1,
   (claim_C5_empty_placeholder_fails (some "proj") (some "")
      { order := SortOrder.ascending, offset := 0, limit := none }).2 rfl⟩

/-- C9: a collection URI with no query parameters parses to order ascending,
offset 0 and unbounded limit; a negative offset or a non-positive limit makes
the parse fail with InvalidInput rather than being clamped. -/
theorem claim_C9_option_defaults :
    parseResourceOptions { limit := none, order := none, offset := none } =
      Except.ok { order := SortOrder.ascending, offset := 0, limit := none } ∧
    (∀ off : Int, off < 0 →
      parseResourceOptions { limit := none, order := none, offset := some off } =
        Except.error (invalidInputErr "offset must be a non-negative integer")) ∧
    (∀ l : Int, l ≤ 0 →
      parseResourceOptions { limit := some l, order := none, offset := none } =
        Except.error (invalidInputErr "limit must be a positive integer")) := by
  refine ⟨rfl, ?_, ?_⟩
  · intro off h
    simp [parseResourceOptions, parseOrderOption, h]
  · intro l h
    simp [parseResourceOptions, parseOrderOption, h]

/-- Witness for C9: offset -1 and limit 0 both fail with InvalidInput. -/
theorem claim_C9_witness :
    parseResourceOptions { limit := none, order := none, offset := some (-1) } =
      Except.error (invalidInputErr "offset must be a non-negative integer") ∧
    parseResourceOptions { limit := some 0, order := none, offset := none } =
      Except.error (invalidInputErr "limit must be a positive integer") :=
  ⟨claim_C9_option_defaults.2.1 (-1) (by decide),
   claim_C9_option_defaults.2.2 0 (by decide)⟩

/-- C3: the context object literal constructed in main does not match the
claimed field set. The ServerContext interface declares config, unleashClient,
logger and notifyProgress, but the object constructed once in main carries
server, config, unleashClient and logger: the notifyProgress field required by
the claim and by the declared interface is absent from the constructed
context, so the code contradicts its own type declaration. -/
theorem claim_C3_context_fields :
    ("notifyProgress" ∈ serverContextFieldNames ∧
     "notifyProgress" ∉ mainContextFieldNames) ∧
    ("server" ∈ mainContextFieldNames ∧
     "server" ∉ serverContextFieldNames) ∧
    serverContextFieldNames ≠ mainContextFieldNames := by
  decide

/-- When the try block of getFlagState throws, no log line has been emitted by
the try block itself: the only log call of the try block sits on the full
success path. -/
theorem getFlagStateTry_error_no_logs (env : GetFlagStateEnv)
    (tok : Option ProgressToken) (e : JsError)
    (h : (getFlagStateTry env tok).1 = Except.error e) :
    (getFlagStateTry env tok).2.1 = [] := by
  obtain ⟨pr, dp, bu, fr, ne⟩ := env
  cases pr with
  | error e0 => rfl
  | ok input =>
    cases hq : ensureProjectId input.projectId dp with
    | error m => simp [getFlagStateTry, hq]
    | ok pid =>
      cases fr with
      | error e1 => simp [getFlagStateTry, hq]
      | ok feature =>
        exfalso
        simp [getFlagStateTry, hq] at h

/-- C1: for every environment (covering schema-validation failures, a missing
project id and remote-call failures) and every progress token, get_flag_state
never propagates an error past the dispatch boundary, and whenever the try
block throws, the result is the handleToolError conversion of the thrown
error: isError is set, structuredContent carries the normalized error, and
exactly one error-level log line is emitted. -/
theorem claim_C1_dispatch_catches (env : GetFlagStateEnv)
    (tok : Option ProgressToken) :
    (∃ r, (getFlagState env tok).1 = Except.ok r) ∧
    ∀ e, (getFlagStateTry env tok).1 = Except.error e →
      (getFlagState env tok).1 = Except.ok (handleToolError "get_flag_state" e).1 ∧
      (handleToolError "get_flag_state" e).1.isError = true ∧
      (handleToolError "get_flag_state" e).1.structuredContent =
        StructuredContent.failure (normalizeError e) ∧
      errorLogCount (getFlagState env tok).2.1 = 1 := by
  constructor
  · rcases hg : getFlagStateTry env tok with ⟨res, logs, notifs⟩
    cases res with
    | ok r => exact ⟨r, by simp [getFlagState, hg]⟩
    | error e =>
      exact ⟨(handleToolError "get_flag_state" e).1, by simp [getFlagState, hg]⟩
  · intro e he
    have hlogs := getFlagStateTry_error_no_logs env tok e he
    rcases hg : getFlagStateTry env tok with ⟨res, logs, notifs⟩
    rw [hg] at he hlogs
    have hres : res = Except.error e := he
    have hl : logs = [] := hlogs
    subst hres hl
    refine ⟨by simp [getFlagState, hg], rfl, rfl, ?_⟩
    simp [getFlagState, hg, errorLogCount, handleToolError]

/-- Witness for C1 at a concrete schema-validation failure: the dispatch
boundary yields the handleToolError result and exactly one error log line. -/
theorem claim_C1_witness :
    (getFlagState
        { parseResult := Except.error (JsError.zod "featureName: Required"),
          defaultProject := none,
          baseUrl := "https://unleash.example.com",
          fetchResult := Except.error (JsError.other "not reached"),
          notifyEnv := { progressSendFails := false, messageSendFails := false } }
        none).1 =
      Except.ok
        (handleToolError "get_flag_state" (JsError.zod "featureName: Required")).1 ∧
    errorLogCount
      ((getFlagState
        { parseResult := Except.error (JsError.zod "featureName: Required"),
          defaultProject := none,
          baseUrl := "https://unleash.example.com",
          fetchResult := Except.error (JsError.other "not reached"),
          notifyEnv := { progressSendFails := false, messageSendFails := false } }
        none).2.1) = 1 :=
  have h :=
    (claim_C1_dispatch_catches
      { parseResult := Except.error (JsError.zod "featureName: Required"),
        defaultProject := none,
        baseUrl := "https://unleash.example.com",
        fetchResult := Except.error (JsError.other "not reached"),
        notifyEnv := { progressSendFails := false, messageSendFails := false } }
      none).2 (JsError.zod "featureName: Required") rfl
  ⟨h.1, h.2.2.2⟩

/-- A concrete environment in which every step of get_flag_state succeeds: the
arguments parse, the project id is provided, and the remote fetch returns a
feature. -/
def sampleOkEnv : GetFlagStateEnv :=
  { parseResult := Except.ok
      { projectId := some "proj", featureName := "flagX", environment := none },
    defaultProject := none,
    baseUrl := "https://unleash.example.com",
    fetchResult := Except.ok
      { name := "flagX", ftype := some "release", enabled := true,
        archived := false, impressionData := false, project := some "proj",
        environments := some [] },
    notifyEnv := { progressSendFails := false, messageSendFails := false } }

/-- C2 fails on the code: on an invocation of get_flag_state that supplies a
progress token and reaches the remote fetch (which succeeds), the notification
trace is empty rather than containing the progress notifications (0,100) and
(100,100).  The two call sites pass five arguments to the curried
one-parameter notifyProgress of streaming.ts, so the inner emitter is returned
but never invoked and a capturing double observes zero emissions. -/
theorem claim_C2_code_bug :
    (getFlagState sampleOkEnv (some (ProgressToken.str "tok-1"))).2.2 = [] ∧
    (∃ r, (getFlagState sampleOkEnv (some (ProgressToken.str "tok-1"))).1 =
        Except.ok r ∧ r.isError = false) := by
  exact ⟨rfl, ⟨_, rfl, rfl⟩⟩

end UnleashMcp
